import Mathlib

/-!
Shallow embedding of the MEDIMORPH reminder scheduling core from
src/app_mongodb.py: the frequency interpreter, the reminder record store
and its reconciliation, the scheduler tick and alert dispatch, the
reminder-listing endpoint and the take-medication action.

Conventions of the embedding:
* MongoDB document ids are modelled as natural numbers; collections are
  lists of records in insertion order; a MongoEngine query
  objects(...).first() is a List.find? over such a list.
* Python datetime values are modelled at minute resolution; the abstract
  calendar-day ordinal stands for datetime.date() (two instants fall on the
  same calendar day iff their date fields are equal, and the next calendar
  day is date + 1).
* A scheduler tick is treated as instantaneous: the several datetime.now()
  calls made inside one tick all denote the tick instant.
-/

/-- Wall-clock instant at minute resolution; date is the calendar-day
ordinal (see module comment). -/
structure DateTime where
  date : Nat
  hour : Nat
  minute : Nat
  deriving DecidableEq, Repr

/-- Two-digit zero padding as produced by strftime for hours and minutes. -/
def pad2 (n : Nat) : String :=
  if n < 10 then "0" ++ toString n else toString n

/-- Model of strftime applied with the format string of line 402: the
HH:MM rendering of an instant. -/
def DateTime.hhmm (d : DateTime) : String :=
  pad2 d.hour ++ ":" ++ pad2 d.minute

/-- Model of datetime.isoformat(): an injective textual rendering of the
instant. -/
def DateTime.isoformat (d : DateTime) : String :=
  toString d.date ++ "T" ++ pad2 d.hour ++ ":" ++ pad2 d.minute

/-- A Medication document, with the fields the reminder core reads
(src/app_mongodb.py lines 172-181 construct them; the dispatcher reads
name, dosage, instructions; deletion flips is_active, lines 304-315). -/
structure Medication where
  id : Nat
  user_id : Nat
  name : String
  dosage : String
  frequency : String
  instructions : String
  is_active : Bool
  deriving DecidableEq, Repr

/-- A Reminder document (created at lines 187-188, 249-250, 577-578 with
is_active := true and no last_sent; the scheduler writes last_sent). -/
structure Reminder where
  id : Nat
  user_id : Nat
  medication_id : Nat
  time : String
  is_active : Bool
  last_sent : Option DateTime
  deriving DecidableEq, Repr

/-- A MedicationLog document (lines 325-330): an append-only record of a
medication-taken event. -/
structure MedicationLog where
  user_id : Nat
  medication_id : Nat
  taken_at : DateTime
  notes : String
  deriving DecidableEq, Repr

/-- The persistent state the reminder core reads and writes. -/
structure DBState where
  medications : List Medication
  reminders : List Reminder
  logs : List MedicationLog
  deriving DecidableEq, Repr

/-- Character-list test that the second list is a leading segment of the
first. -/
def charsStartWith : List Char → List Char → Bool
  | [], _ => true
  | _ :: _, [] => false
  | c :: cs, d :: ds => c == d && charsStartWith cs ds

/-- Python substring test (needle in hay) on character lists. -/
def charsContain (hay needle : List Char) : Bool :=
  match hay with
  | [] => needle.isEmpty
  | _ :: t => charsStartWith needle hay || charsContain t needle

/-- Model of Python str.lower(): the lowered character list of a string. -/
def strLower (s : String) : List Char :=
  s.toList.map Char.toLower

/-- Python membership test needle in hay for a lowered haystack. -/
def strContains (hay : List Char) (needle : String) : Bool :=
  charsContain hay needle.toList

/-- The fixed-priority keyword decision list of parse_frequency_to_times
(src/app_mongodb.py lines 616-627), over the already-lowered text. -/
def freq_times_of (text : List Char) : List String :=
  if strContains text "1-1-1" || strContains text "three" || strContains text "tds" then
    ["09:00", "14:00", "20:00"]
  else if strContains text "1-0-1" || strContains text "twice" || strContains text "bid" ||
      strContains text "0-1-1" || strContains text "1-1-0" then
    ["09:00", "20:00"]
  else if strContains text "0-0-1" || strContains text "night" then
    ["20:00"]
  else if strContains text "morning" || strContains text "1-0-0" then
    ["09:00"]
  else if strContains text "qid" || strContains text "four" then
    ["08:00", "12:00", "16:00", "20:00"]
  else
    ["09:00"]

/-- Embedding of parse_frequency_to_times (src/app_mongodb.py lines
614-627): lowercase the text (None is already the empty string here since
the model's frequency field is total) and walk the fixed-priority keyword
decision list, defaulting to the single time 09:00. -/
def parse_frequency_to_times (frequency_text : String) : List String :=
  freq_times_of (strLower frequency_text)

/-- Modelled from the spec: section 4.1's contract for the Frequency
Interpreter, written from the spec's words — a fixed-priority decision
list matched case-insensitively by keyword containment, first matching
pattern wins, with the default time 09:00 for unrecognized text. -/
def interpretSpec (frequencyText : String) : List String :=
  let t := strLower frequencyText
  if strContains t "1-1-1" || strContains t "three" || strContains t "tds" then
    ["09:00", "14:00", "20:00"]
  else if strContains t "1-0-1" || strContains t "twice" || strContains t "bid" ||
      strContains t "0-1-1" || strContains t "1-1-0" then
    ["09:00", "20:00"]
  else if strContains t "0-0-1" || strContains t "night" then
    ["20:00"]
  else if strContains t "morning" || strContains t "1-0-0" then
    ["09:00"]
  else if strContains t "qid" || strContains t "four" then
    ["08:00", "12:00", "16:00", "20:00"]
  else
    ["09:00"]

/-- An alert payload handed to fan-out: a JSON-like field/value list in
construction order. -/
abbrev Alert := List (String × String)

/-- The alert dict built by _send_reminder_alert (lines 417-426), including
its leading type field; document ids are stringified as in the source. -/
def mkAlert (r : Reminder) (m : Medication) (now : DateTime) : Alert :=
  [("type", "medication_reminder"),
   ("reminder_id", toString r.id),
   ("medication_id", toString m.id),
   ("medication_name", m.name),
   ("dosage", m.dosage),
   ("instructions", m.instructions),
   ("time", r.time),
   ("timestamp", now.isoformat)]

/-- The per-reminder firing test of _check_and_send_reminders (lines
403-408): the query's is_active filter, the exact HH:MM match against the
tick instant, and the fired-today dedup on last_sent. -/
def due (now : DateTime) (r : Reminder) : Bool :=
  r.is_active && r.time == now.hhmm &&
    (match r.last_sent with
     | none => true
     | some ls => ls.date != now.date)

/-- Embedding of _send_reminder_alert (lines 411-429): look the owning
medication up by id alone (the query has no is_active filter); if it is
missing, return without any effect; otherwise set last_sent to the tick
instant, save, and emit the alert over socketio (the running service is
constructed with a socketio handle, line 603, so the emission happens).
Returns the possibly-updated reminder record and the emitted alert. -/
def send_reminder_alert (st : DBState) (now : DateTime) (r : Reminder) :
    Reminder × Option Alert :=
  match st.medications.find? (fun m => m.id == r.medication_id) with
  | none => (r, none)
  | some m =>
    let r2 := { r with last_sent := some now }
    (r2, some (mkAlert r2 m now))

/-- One iteration of the per-reminder loop body of lines 404-409. -/
def process_reminder (st : DBState) (now : DateTime) (r : Reminder) :
    Reminder × Option Alert :=
  if due now r then send_reminder_alert st now r else (r, none)

/-- One scheduler tick, _check_and_send_reminders (lines 400-409).  The
loop iterates a snapshot of the reminder collection and processes each
reminder independently (the medication lookups never read reminder state,
and each save touches only its own document), so the tick is the map of
the per-reminder step over the stored reminders, paired with the alerts
emitted in loop order. -/
def check_and_send_reminders (st : DBState) (now : DateTime) :
    DBState × List Alert :=
  ({ st with reminders := st.reminders.map (fun r => (process_reminder st now r).1) },
   st.reminders.filterMap (fun r => (process_reminder st now r).2))

/-- The per-reminder loop of lines 404-409 with an injected transient
failure: fails r = true means the store raises while _send_reminder_alert
processes r (spec section 7, error class 1), before any mutation of r.
The loop body has no try/except of its own, so the exception aborts the
loop: the failing reminder and every later one are left untouched and the
tick reports the raised error.  Returns (reminder records, alerts emitted,
whether the tick raised). -/
def tick_go_f (st : DBState) (now : DateTime) (fails : Reminder → Bool) :
    List Reminder → List Reminder × List Alert × Bool
  | [] => ([], [], false)
  | r :: rs =>
    if due now r then
      if fails r then (r :: rs, [], true)
      else
        let p := send_reminder_alert st now r
        let rest := tick_go_f st now fails rs
        (p.1 :: rest.1, p.2.toList ++ rest.2.1, rest.2.2)
    else
      let rest := tick_go_f st now fails rs
      (r :: rest.1, rest.2)

/-- One scheduler tick under injected failures. -/
def check_and_send_reminders_f (st : DBState) (now : DateTime)
    (fails : Reminder → Bool) : DBState × List Alert × Bool :=
  let p := tick_go_f st now fails st.reminders
  ({ st with reminders := p.1 }, p.2)

/-- Embedding of _reminder_loop (lines 390-398): each iteration runs one
tick inside try/except, so an error raised by the tick is caught (logged)
and the loop sleeps and continues.  The sequence of tick instants is the
list ts, and fails k injects the failures of the k-th tick.  Returns the
final state and the alerts emitted by each successive tick. -/
def reminder_loop (fails : Nat → Reminder → Bool) (k : Nat) :
    List DateTime → DBState → DBState × List (List Alert)
  | [], st => (st, [])
  | t :: ts, st =>
    let p := check_and_send_reminders_f st t (fails k)
    let rest := reminder_loop fails (k + 1) ts p.1
    (rest.1, p.2.1 :: rest.2)

/-- The reminder-key predicate of the existence queries at lines 187, 249
and 577. -/
def keyMatch (uid mid : Nat) (t : String) (r : Reminder) : Bool :=
  r.user_id == uid && r.medication_id == mid && r.time == t

/-- Fresh document id for a newly saved reminder (MongoDB assigns a fresh
ObjectId on save; any id not already present does). -/
def fresh_id (st : DBState) : Nat :=
  st.reminders.foldr (fun r acc => max (r.id + 1) acc) 0

/-- The create-if-absent reminder step shared verbatim by the three
creation paths (lines 187-188 manual creation, 249-250 prescription
upload, 577-578 startup backfill): query by (user, medication, time) and
save a fresh active reminder only when nothing matches. -/
def ensure_reminder (st : DBState) (uid mid : Nat) (t : String) : DBState :=
  match st.reminders.find? (keyMatch uid mid t) with
  | some _ => st
  | none =>
    { st with reminders := st.reminders ++
        [{ id := fresh_id st, user_id := uid, medication_id := mid,
           time := t, is_active := true, last_sent := none }] }

/-- The per-medication reconcile loop (lines 185-188, 247-250, 575-578):
ensure one reminder per parsed frequency time. -/
def ensure_all (st : DBState) (uid mid : Nat) (freq : String) : DBState :=
  (parse_frequency_to_times freq).foldl (fun s t => ensure_reminder s uid mid t) st

/-- Embedding of backfill_reminders_for_all_users (lines 569-581): for
every user, reconcile each of the user's active medications.  Iterating
users and then their medications visits each active medication exactly
once, so the backfill is a fold of the per-medication reconcile over the
active medications. -/
def backfill_reminders_for_all_users (st : DBState) : DBState :=
  st.medications.foldl
    (fun s m => if m.is_active then ensure_all s m.user_id m.id m.frequency else s) st

/-- The (user, medication, time) key of a stored reminder. -/
def reminderKey (r : Reminder) : Nat × Nat × String :=
  (r.user_id, r.medication_id, r.time)

/-- Number of stored reminders carrying a given (user, medication, time)
key. -/
def countKey (st : DBState) (uid mid : Nat) (t : String) : Nat :=
  (st.reminders.filter (keyMatch uid mid t)).length

/-- One row of the GET /reminders response (lines 289-298); values are
Option String so that None renders as null. -/
def reminder_entry (st : DBState) (r : Reminder) : List (String × Option String) :=
  [("id", some (toString r.id)),
   ("medication_id", some (toString r.medication_id)),
   ("medication_name",
     some (match st.medications.find? (fun m => m.id == r.medication_id) with
           | some m => m.name
           | none => "Unknown")),
   ("time", some r.time),
   ("last_taken", r.last_sent.map DateTime.isoformat),
   ("next_dose", none)]

/-- Embedding of list_reminders, GET /reminders (lines 283-301): one entry
for each active reminder of the requesting user. -/
def list_reminders (st : DBState) (uid : Nat) : List (List (String × Option String)) :=
  (st.reminders.filter (fun r => r.user_id == uid && r.is_active)).map (reminder_entry st)

/-- Embedding of take_medication, POST /take-medication (lines 318-337):
look the medication up by id and owner; when found, append one
MedicationLog (taken_at is the save instant, the schema's default
timestamp) and emit a socket event; nothing else is touched. -/
def take_medication (st : DBState) (uid mid : Nat) (now : DateTime) : DBState :=
  match st.medications.find? (fun m => m.id == mid && m.user_id == uid) with
  | none => st
  | some m =>
    { st with logs := st.logs ++
        [{ user_id := uid, medication_id := m.id, taken_at := now, notes := "" }] }

/-- Concrete tick instant used by the concrete checks below: 09:00 on
day 100. -/
def exNow : DateTime := { date := 100, hour := 9, minute := 0 }

/-- Concrete active medication used by the concrete checks below. -/
def exMed : Medication :=
  { id := 1, user_id := 7, name := "Aspirin", dosage := "81mg",
    frequency := "twice daily (1-0-1)", instructions := "after food", is_active := true }

/-- Concrete never-fired reminder for exMed at 09:00. -/
def exRem : Reminder :=
  { id := 11, user_id := 7, medication_id := 1, time := "09:00",
    is_active := true, last_sent := none }

/-- Concrete one-medication, one-reminder state. -/
def exSt : DBState := { medications := [exMed], reminders := [exRem], logs := [] }

/-- Every alert built by the dispatcher carries its reminder's stringified
id under the reminder_id key. -/
theorem lookup_mkAlert (r : Reminder) (m : Medication) (now : DateTime) :
    List.lookup "reminder_id" (mkAlert r m now) = some (toString r.id) := rfl

/-- The per-reminder step never changes a reminder's document id. -/
theorem processReminder_id (st : DBState) (now : DateTime) (y : Reminder) :
    ((process_reminder st now y).1).id = y.id := by
  unfold process_reminder send_reminder_alert
  split
  · split <;> rfl
  · rfl

/-- An alert emitted while processing a reminder carries that reminder's
stringified id. -/
theorem processReminder_alert_id (st : DBState) (now : DateTime) (y : Reminder)
    (a : Alert) (h : (process_reminder st now y).2 = some a) :
    List.lookup "reminder_id" a = some (toString y.id) := by
  unfold process_reminder send_reminder_alert at h
  cases hdue : due now y
  · simp [hdue] at h
  · cases hf : st.medications.find? (fun m => m.id == y.medication_id)
    · simp [hdue, hf] at h
    · simp [hdue, hf] at h
      subst h
      exact lookup_mkAlert _ _ _

/-- A due reminder whose medication lookup succeeds is marked fired and
produces exactly the dispatcher's alert. -/
theorem processReminder_fires (st : DBState) (now : DateTime) (r : Reminder)
    (m : Medication) (hdue : due now r = true)
    (hmed : st.medications.find? (fun x => x.id == r.medication_id) = some m) :
    process_reminder st now r
      = ({ r with last_sent := some now },
         some (mkAlert { r with last_sent := some now } m now)) := by
  unfold process_reminder send_reminder_alert
  simp [hdue, hmed]

/-- A non-due reminder is left untouched and produces no alert. -/
theorem processReminder_skips (st : DBState) (now : DateTime) (r : Reminder)
    (h : due now r = false) : process_reminder st now r = (r, none) := by
  unfold process_reminder
  simp [h]

/-- A reminder whose medication document is missing is left untouched and
produces no alert. -/
theorem processReminder_nomed (st : DBState) (now : DateTime) (r : Reminder)
    (h : st.medications.find? (fun x => x.id == r.medication_id) = none) :
    process_reminder st now r = (r, none) := by
  unfold process_reminder send_reminder_alert
  simp [h]

/-- The firing test passes for an active reminder at its trigger minute
when it never fired or last fired on an earlier calendar day. -/
theorem due_true_of (now : DateTime) (r : Reminder) (hact : r.is_active = true)
    (htime : r.time = now.hhmm)
    (hlast : r.last_sent = none ∨ ∃ d, r.last_sent = some d ∧ d.date ≠ now.date) :
    due now r = true := by
  unfold due
  rcases hlast with h | ⟨d, hd, hne⟩
  · simp [hact, htime, h]
  · simp [hact, htime, hd, hne]

/-- The firing test fails whenever the reminder already fired on the
current calendar day. -/
theorem due_false_of_today (now : DateTime) (r : Reminder) (d : DateTime)
    (hd : r.last_sent = some d) (heq : d.date = now.date) : due now r = false := by
  unfold due
  simp [hd, heq]

/-- A tick over reminders whose id strings all differ from s emits no
alert carrying reminder_id s. -/
theorem alerts_none (st : DBState) (now : DateTime) :
    ∀ (l : List Reminder) (s : String), (∀ y ∈ l, toString y.id ≠ s) →
      (l.filterMap (fun y => (process_reminder st now y).2)).filter
        (fun a => List.lookup "reminder_id" a == some s) = []
  | [], _, _ => rfl
  | x :: xs, s, h => by
    have hx : toString x.id ≠ s := h x (List.mem_cons_self x xs)
    have ih := alerts_none st now xs s (fun y hy => h y (List.mem_cons_of_mem x hy))
    cases hfx : (process_reminder st now x).2 with
    | none => simpa [List.filterMap_cons, hfx] using ih
    | some a =>
      have ha := processReminder_alert_id st now x a hfx
      have hpa : (List.lookup "reminder_id" a == some s) = false := by
        rw [ha]
        simp [hx]
      simp [List.filterMap_cons, hfx, List.filter_cons, hpa, ih]

/-- In a tick over reminders with pairwise distinct id strings, the alerts
carrying the id of a given stored reminder are exactly the alerts that
reminder's own processing step emits. -/
theorem alerts_for (st : DBState) (now : DateTime) :
    ∀ (l : List Reminder) (r : Reminder),
      ((l.map fun x => toString x.id).Nodup) → r ∈ l →
      (l.filterMap (fun y => (process_reminder st now y).2)).filter
          (fun a => List.lookup "reminder_id" a == some (toString r.id))
        = ((process_reminder st now r).2).toList.filter
          (fun a => List.lookup "reminder_id" a == some (toString r.id))
  | [], r, _, hmem => absurd hmem (List.not_mem_nil r)
  | x :: xs, r, hnd, hmem => by
    rw [List.map_cons, List.nodup_cons] at hnd
    obtain ⟨hx, hxs⟩ := hnd
    rcases List.mem_cons.mp hmem with rfl | hr
    · have htail : (xs.filterMap (fun y => (process_reminder st now y).2)).filter
          (fun a => List.lookup "reminder_id" a == some (toString r.id)) = [] := by
        apply alerts_none
        intro y hy hcontra
        exact hx (hcontra ▸ List.mem_map_of_mem (fun z => toString z.id) hy)
      cases hfx : (process_reminder st now r).2 with
      | none => simp [List.filterMap_cons, hfx, htail]
      | some a =>
        have ha := processReminder_alert_id st now r a hfx
        simp [List.filterMap_cons, hfx, List.filter_cons, ha, htail]
    · have hxr : toString x.id ≠ toString r.id := fun hcontra =>
        hx (hcontra ▸ List.mem_map_of_mem (fun z => toString z.id) hr)
      have ih := alerts_for st now xs r hxs hr
      cases hfx : (process_reminder st now x).2 with
      | none => simpa [List.filterMap_cons, hfx] using ih
      | some a =>
        have ha := processReminder_alert_id st now x a hfx
        have hpa : (List.lookup "reminder_id" a == some (toString r.id)) = false := by
          rw [ha]
          simp [hxr]
        simp [List.filterMap_cons, hfx, List.filter_cons, hpa, ih]

/-- Mapping an id-preserving step over reminders whose ids all differ from
i leaves nothing with id i. -/
theorem stored_none (f : Reminder → Reminder) (hf : ∀ y, (f y).id = y.id) :
    ∀ (l : List Reminder) (i : Nat), (∀ y ∈ l, y.id ≠ i) →
      (l.map f).filter (fun x => x.id == i) = []
  | [], _, _ => rfl
  | x :: xs, i, h => by
    have hx : (f x).id ≠ i := by
      rw [hf x]
      exact h x (List.mem_cons_self x xs)
    have ih := stored_none f hf xs i (fun y hy => h y (List.mem_cons_of_mem x hy))
    simp [List.filter_cons, hx, ih]

/-- After mapping an id-preserving step over reminders with pairwise
distinct ids, the records carrying a stored reminder's id are exactly the
image of that reminder. -/
theorem stored_for (f : Reminder → Reminder) (hf : ∀ y, (f y).id = y.id) :
    ∀ (l : List Reminder) (r : Reminder),
      ((l.map fun x => x.id).Nodup) → r ∈ l →
      (l.map f).filter (fun x => x.id == r.id) = [f r]
  | [], r, _, hmem => absurd hmem (List.not_mem_nil r)
  | x :: xs, r, hnd, hmem => by
    rw [List.map_cons, List.nodup_cons] at hnd
    obtain ⟨hx, hxs⟩ := hnd
    rcases List.mem_cons.mp hmem with rfl | hr
    · have htail := stored_none f hf xs r.id
        (fun y hy hc => hx (hc ▸ List.mem_map_of_mem (fun z => z.id) hy))
      simp [List.filter_cons, hf, htail]
    · have hxr : x.id ≠ r.id := fun hc =>
        hx (hc ▸ List.mem_map_of_mem (fun z => z.id) hr)
      have hpa : (f x).id ≠ r.id := by
        rw [hf x]
        exact hxr
      have ih := stored_for f hf xs r hxs hr
      simp [List.filter_cons, hpa, ih]

/-- Distinct id strings imply distinct ids. -/
theorem nodup_ids_of (l : List Reminder)
    (h : (l.map fun x => toString x.id).Nodup) : (l.map fun x => x.id).Nodup := by
  have h2 : ((l.map fun x => x.id).map toString).Nodup := by
    rw [List.map_map]
    exact h
  exact List.Nodup.of_map toString h2

/-- A pointwise property of a map gives the corresponding Forall2. -/
theorem forall2_map_self {α β} (P : α → β → Prop) (f : α → β) :
    ∀ l : List α, (∀ x ∈ l, P x (f x)) → List.Forall₂ P l (l.map f)
  | [], _ => List.Forall₂.nil
  | x :: xs, h =>
    List.Forall₂.cons (h x (List.mem_cons_self x xs))
      (forall2_map_self P f xs (fun y hy => h y (List.mem_cons_of_mem x hy)))

/-- C4: the frequency interpreter agrees with the spec's fixed-priority
decision list on every input string (so matching is case-insensitive and
rule order decides ambiguous text), always returns without failing a
non-empty list of times, and in particular the ambiguous text 1-1-1 bid
takes rule 1's three-times-daily set, not the twice-daily set. -/
theorem C4_frequency_decision_list (s : String) :
    parse_frequency_to_times s = interpretSpec s
    ∧ parse_frequency_to_times s ≠ []
    ∧ parse_frequency_to_times "1-1-1 bid" = ["09:00", "14:00", "20:00"] := by
  refine ⟨rfl, ?_, by decide⟩
  unfold parse_frequency_to_times freq_times_of
  split_ifs <;> simp

/-- C8: one scheduler tick mutates no stored state except the last_sent
field of the reminders it fires: medications and logs are returned intact,
the reminder list keeps its length and order, every reminder keeps its id,
owner, medication, trigger time and active flag, and each record is either
wholly unchanged or differs only in last_sent, which becomes the tick
instant; in particular no Reminder or MedicationLog record is created. -/
theorem C8_tick_frame (st : DBState) (now : DateTime) :
    (check_and_send_reminders st now).1.medications = st.medications
    ∧ (check_and_send_reminders st now).1.logs = st.logs
    ∧ List.Forall₂ (fun r r2 => r2.id = r.id ∧ r2.user_id = r.user_id
        ∧ r2.medication_id = r.medication_id ∧ r2.time = r.time
        ∧ r2.is_active = r.is_active ∧ (r2 = r ∨ r2.last_sent = some now))
      st.reminders (check_and_send_reminders st now).1.reminders := by
  refine ⟨rfl, rfl, forall2_map_self _ _ _ ?_⟩
  intro y _
  unfold process_reminder send_reminder_alert
  split
  · split
    · exact ⟨rfl, rfl, rfl, rfl, rfl, Or.inl rfl⟩
    · exact ⟨rfl, rfl, rfl, rfl, rfl, Or.inr rfl⟩
  · exact ⟨rfl, rfl, rfl, rfl, rfl, Or.inl rfl⟩

/-- C10: GET /reminders reports, for each active reminder of the user in
store order, a last_taken value equal to that reminder's own last_sent
timestamp — the instant the scheduler last fired it, null if never — and a
take-medication action, which only appends a MedicationLog entry, leaves
the reminder listing unchanged. -/
theorem C10_last_taken_is_last_sent (st : DBState) (uid u2 mid : Nat) (now : DateTime) :
    List.Forall₂ (fun r e =>
        List.lookup "last_taken" e = some (Option.map DateTime.isoformat r.last_sent))
      (st.reminders.filter fun r => r.user_id == uid && r.is_active)
      (list_reminders st uid)
    ∧ list_reminders (take_medication st u2 mid now) uid = list_reminders st uid := by
  constructor
  · exact forall2_map_self _ _ _ (fun r _ => rfl)
  · unfold take_medication
    cases st.medications.find? (fun m => m.id == mid && m.user_id == u2) <;> rfl

/-- C1: at a tick whose wall-clock minute equals the trigger time of an
active reminder that never fired or last fired on an earlier calendar day,
and whose owning medication document is found, the tick publishes exactly
one alert carrying that reminder's id — the dispatcher's payload — and the
stored record now carries last_sent = the tick instant, whose calendar
date is today's date. -/
theorem C1_due_reminder_fires_once (st : DBState) (now : DateTime) (r : Reminder)
    (m : Medication)
    (hmem : r ∈ st.reminders)
    (hnd : (st.reminders.map fun x => toString x.id).Nodup)
    (hact : r.is_active = true)
    (htime : r.time = now.hhmm)
    (hlast : r.last_sent = none ∨ ∃ d, r.last_sent = some d ∧ d.date ≠ now.date)
    (hmed : st.medications.find? (fun x => x.id == r.medication_id) = some m) :
    (check_and_send_reminders st now).2.filter
        (fun a => List.lookup "reminder_id" a == some (toString r.id))
      = [mkAlert { r with last_sent := some now } m now]
    ∧ (check_and_send_reminders st now).1.reminders.filter (fun x => x.id == r.id)
      = [{ r with last_sent := some now }] := by
  have hdue := due_true_of now r hact htime hlast
  have hp := processReminder_fires st now r m hdue hmed
  constructor
  · rw [show (check_and_send_reminders st now).2
          = st.reminders.filterMap (fun y => (process_reminder st now y).2) from rfl,
      alerts_for st now st.reminders r hnd hmem, hp]
    simp [lookup_mkAlert]
  · rw [show (check_and_send_reminders st now).1.reminders
          = st.reminders.map (fun y => (process_reminder st now y).1) from rfl,
      stored_for (fun y => (process_reminder st now y).1) (processReminder_id st now)
        st.reminders r (nodup_ids_of _ hnd) hmem, hp]

/-- C2: dedup-by-day — when a reminder's last_sent is dated today, a tick
at its trigger time publishes no alert for it and leaves its stored record
unchanged; a tick at the trigger time on the next calendar day (last_sent
now dated yesterday) fires it exactly once again. -/
theorem C2_at_most_once_per_day (st : DBState) (now next : DateTime)
    (r : Reminder) (m : Medication) (d : DateTime)
    (hmem : r ∈ st.reminders)
    (hnd : (st.reminders.map fun x => toString x.id).Nodup)
    (hact : r.is_active = true)
    (hlast : r.last_sent = some d)
    (htoday : d.date = now.date)
    (hnext : next.date = d.date + 1)
    (htime : r.time = next.hhmm)
    (hmed : st.medications.find? (fun x => x.id == r.medication_id) = some m) :
    (check_and_send_reminders st now).2.filter
        (fun a => List.lookup "reminder_id" a == some (toString r.id)) = []
    ∧ (check_and_send_reminders st now).1.reminders.filter (fun x => x.id == r.id) = [r]
    ∧ (check_and_send_reminders st next).2.filter
        (fun a => List.lookup "reminder_id" a == some (toString r.id))
      = [mkAlert { r with last_sent := some next } m next] := by
  have hdueF := due_false_of_today now r d hlast htoday
  have hskip := processReminder_skips st now r hdueF
  have hdueT : due next r = true :=
    due_true_of next r hact htime (Or.inr ⟨d, hlast, by omega⟩)
  have hfire := processReminder_fires st next r m hdueT hmed
  refine ⟨?_, ?_, ?_⟩
  · rw [show (check_and_send_reminders st now).2
        = st.reminders.filterMap (fun y => (process_reminder st now y).2) from rfl,
      alerts_for st now st.reminders r hnd hmem, hskip]
    rfl
  · rw [show (check_and_send_reminders st now).1.reminders
        = st.reminders.map (fun y => (process_reminder st now y).1) from rfl,
      stored_for (fun y => (process_reminder st now y).1) (processReminder_id st now)
        st.reminders r (nodup_ids_of _ hnd) hmem, hskip]
  · rw [show (check_and_send_reminders st next).2
        = st.reminders.filterMap (fun y => (process_reminder st next y).2) from rfl,
      alerts_for st next st.reminders r hnd hmem, hfire]
    simp [lookup_mkAlert]

/-- Concrete deactivated medication for the C3 check. -/
def exMedInactive : Medication :=
  { id := 2, user_id := 7, name := "OldMed", dosage := "5mg",
    frequency := "at night", instructions := "", is_active := false }

/-- Concrete due reminder owned by the deactivated medication. -/
def exRemInactiveMed : Reminder :=
  { id := 31, user_id := 7, medication_id := 2, time := "09:00",
    is_active := true, last_sent := none }

/-- Concrete state whose only medication is deactivated. -/
def exStInactiveMed : DBState :=
  { medications := [exMedInactive], reminders := [exRemInactiveMed], logs := [] }

/-- C3 counterexample: the owning medication exists but is deactivated
(is_active = false), the reminder is due at the tick, and the tick
nevertheless publishes an alert for it and advances its last_sent — the
dispatcher's medication query filters by id only, so an inactive
medication does not suppress the firing as the claim states. -/
theorem C3_counterexample :
    exMedInactive.is_active = false
    ∧ (check_and_send_reminders exStInactiveMed exNow).2
        = [mkAlert { exRemInactiveMed with last_sent := some exNow } exMedInactive exNow]
    ∧ (check_and_send_reminders exStInactiveMed exNow).1.reminders
        = [{ exRemInactiveMed with last_sent := some exNow }] := by decide

/-- C3 amended: a due reminder whose owning medication document is missing
from the store is skipped — the tick publishes no alert carrying its id
and leaves its stored record (in particular last_sent) unchanged; when the
medication document exists but is merely inactive, the tick still fires
it, since the dispatcher checks only existence. -/
theorem C3_missing_medication_skips (st : DBState) (now : DateTime) (r : Reminder)
    (hmem : r ∈ st.reminders)
    (hnd : (st.reminders.map fun x => toString x.id).Nodup)
    (hmed : st.medications.find? (fun x => x.id == r.medication_id) = none) :
    (check_and_send_reminders st now).2.filter
        (fun a => List.lookup "reminder_id" a == some (toString r.id)) = []
    ∧ (check_and_send_reminders st now).1.reminders.filter (fun x => x.id == r.id)
      = [r] := by
  have hskip := processReminder_nomed st now r hmed
  constructor
  · rw [show (check_and_send_reminders st now).2
        = st.reminders.filterMap (fun y => (process_reminder st now y).2) from rfl,
      alerts_for st now st.reminders r hnd hmem, hskip]
    rfl
  · rw [show (check_and_send_reminders st now).1.reminders
        = st.reminders.map (fun y => (process_reminder st now y).1) from rfl,
      stored_for (fun y => (process_reminder st now y).1) (processReminder_id st now)
        st.reminders r (nodup_ids_of _ hnd) hmem, hskip]

/-- A failed search over the left part of an append continues on the
right part. -/
theorem find?_append_none {α : Type} (p : α → Bool) :
    ∀ (l1 l2 : List α), l1.find? p = none → (l1 ++ l2).find? p = l2.find? p
  | [], _, _ => rfl
  | x :: xs, l2, h => by
    cases hpx : p x with
    | true =>
      rw [List.find?_cons_of_pos _ hpx] at h
      cases h
    | false =>
      rw [List.find?_cons_of_neg _ (by simp [hpx])] at h
      rw [List.cons_append, List.find?_cons_of_neg _ (by simp [hpx])]
      exact find?_append_none p xs l2 h

/-- A successful search over the left part of an append is unchanged by
the right part. -/
theorem find?_append_some {α : Type} (p : α → Bool) :
    ∀ (l1 l2 : List α) (a : α), l1.find? p = some a → (l1 ++ l2).find? p = some a
  | [], _, _, h => by simp at h
  | x :: xs, l2, a, h => by
    cases hpx : p x with
    | true =>
      rw [List.find?_cons_of_pos _ hpx] at h
      rw [List.cons_append, List.find?_cons_of_pos _ hpx]
      exact h
    | false =>
      rw [List.find?_cons_of_neg _ (by simp [hpx])] at h
      rw [List.cons_append, List.find?_cons_of_neg _ (by simp [hpx])]
      exact find?_append_some p xs l2 a h

/-- When the key is already stored, ensure_reminder performs no write. -/
theorem ensure_reminder_of_found (st : DBState) (u m : Nat) (t : String)
    (r0 : Reminder) (h : st.reminders.find? (keyMatch u m t) = some r0) :
    ensure_reminder st u m t = st := by
  unfold ensure_reminder
  rw [h]

/-- When the key is absent, ensure_reminder appends exactly one fresh
active record for it. -/
theorem ensure_reminder_of_absent (st : DBState) (u m : Nat) (t : String)
    (h : st.reminders.find? (keyMatch u m t) = none) :
    ensure_reminder st u m t
      = { st with reminders := st.reminders ++
          [{ id := fresh_id st, user_id := u, medication_id := m,
             time := t, is_active := true, last_sent := none }] } := by
  unfold ensure_reminder
  rw [h]

/-- After ensure_reminder, the key is present. -/
theorem ensure_present (st : DBState) (u m : Nat) (t : String) :
    ∃ r0, ((ensure_reminder st u m t).reminders.find? (keyMatch u m t)) = some r0 := by
  cases hf : st.reminders.find? (keyMatch u m t) with
  | some r0 =>
    rw [ensure_reminder_of_found st u m t r0 hf]
    exact ⟨r0, hf⟩
  | none =>
    rw [ensure_reminder_of_absent st u m t hf]
    refine ⟨{ id := fresh_id st, user_id := u, medication_id := m,
              time := t, is_active := true, last_sent := none }, ?_⟩
    dsimp only
    rw [find?_append_none _ _ _ hf]
    simp [List.find?, keyMatch]

/-- ensure_reminder never loses an already-present key. -/
theorem ensure_preserves_present (st : DBState) (u m u2 m2 : Nat) (t t2 : String)
    (h : ∃ r0, st.reminders.find? (keyMatch u m t) = some r0) :
    ∃ r0, ((ensure_reminder st u2 m2 t2).reminders.find? (keyMatch u m t)) = some r0 := by
  obtain ⟨r0, h⟩ := h
  cases hf : st.reminders.find? (keyMatch u2 m2 t2) with
  | some rx =>
    rw [ensure_reminder_of_found st u2 m2 t2 rx hf]
    exact ⟨r0, h⟩
  | none =>
    rw [ensure_reminder_of_absent st u2 m2 t2 hf]
    dsimp only
    exact ⟨r0, find?_append_some _ _ _ _ h⟩

/-- A reconcile fold never loses an already-present key. -/
theorem fold_preserves_present (u m : Nat) :
    ∀ (ts : List String) (st : DBState) (u0 m0 : Nat) (t0 : String),
      (∃ r0, st.reminders.find? (keyMatch u0 m0 t0) = some r0) →
      ∃ r0, ((ts.foldl (fun s x => ensure_reminder s u m x) st).reminders.find?
        (keyMatch u0 m0 t0)) = some r0
  | [], _, _, _, _, h => h
  | x :: xs, st, u0, m0, t0, h =>
    fold_preserves_present u m xs (ensure_reminder st u m x) u0 m0 t0
      (ensure_preserves_present st u0 m0 u m t0 x h)

/-- After a reconcile fold, every folded time's key is present. -/
theorem fold_ensure_present (u m : Nat) :
    ∀ (ts : List String) (st : DBState) (t : String), t ∈ ts →
      ∃ r0, ((ts.foldl (fun s x => ensure_reminder s u m x) st).reminders.find?
        (keyMatch u m t)) = some r0
  | [], _, t, ht => absurd ht (List.not_mem_nil t)
  | x :: xs, st, t, ht => by
    rcases List.mem_cons.mp ht with rfl | hm
    · exact fold_preserves_present u m xs (ensure_reminder st u m t) u m t
        (ensure_present st u m t)
    · exact fold_ensure_present u m xs (ensure_reminder st u m x) t hm

/-- A reconcile fold over keys that are all present is the identity. -/
theorem fold_ensure_of_present (u m : Nat) :
    ∀ (ts : List String) (st : DBState),
      (∀ t ∈ ts, ∃ r0, st.reminders.find? (keyMatch u m t) = some r0) →
      ts.foldl (fun s x => ensure_reminder s u m x) st = st
  | [], _, _ => rfl
  | x :: xs, st, h => by
    obtain ⟨r0, hx⟩ := h x (List.mem_cons_self x xs)
    show xs.foldl (fun s y => ensure_reminder s u m y) (ensure_reminder st u m x) = st
    rw [ensure_reminder_of_found st u m x r0 hx]
    exact fold_ensure_of_present u m xs st (fun t ht => h t (List.mem_cons_of_mem x ht))

/-- C5: the create-if-absent reminder step is idempotent — running it
twice with identical (user, medication, time) arguments equals running it
once; re-running the per-medication reconcile loop when its reminders
already exist performs no write at all; and after the step the store holds
exactly one reminder for the key, provided it held at most one before. -/
theorem C5_ensure_idempotent (st : DBState) (u m : Nat) (t : String) (freq : String)
    (hc : countKey st u m t ≤ 1) :
    ensure_reminder (ensure_reminder st u m t) u m t = ensure_reminder st u m t
    ∧ ensure_all (ensure_all st u m freq) u m freq = ensure_all st u m freq
    ∧ countKey (ensure_reminder st u m t) u m t = 1 := by
  refine ⟨?_, ?_, ?_⟩
  · obtain ⟨r0, h⟩ := ensure_present st u m t
    exact ensure_reminder_of_found _ u m t r0 h
  · unfold ensure_all
    exact fold_ensure_of_present u m _ _
      (fun t2 ht2 => fold_ensure_present u m _ st t2 ht2)
  · cases hf : st.reminders.find? (keyMatch u m t) with
    | some r0 =>
      rw [ensure_reminder_of_found st u m t r0 hf]
      have hmem : r0 ∈ st.reminders.filter (keyMatch u m t) :=
        List.mem_filter.mpr ⟨List.mem_of_find?_eq_some hf, List.find?_some hf⟩
      have hpos := List.length_pos_of_mem hmem
      unfold countKey at hc ⊢
      omega
    | none =>
      rw [ensure_reminder_of_absent st u m t hf]
      unfold countKey
      dsimp only
      rw [List.filter_append]
      have hnil : st.reminders.filter (keyMatch u m t) = [] := by
        rw [List.filter_eq_nil_iff]
        intro a ha
        simpa using List.find?_eq_none.mp hf a ha
      rw [hnil]
      simp [keyMatch]

/-- Membership after the create-if-absent step: a stored reminder was
either already present or is the freshly keyed record. -/
theorem mem_ensure (st : DBState) (u m : Nat) (t : String) (r2 : Reminder)
    (h : r2 ∈ (ensure_reminder st u m t).reminders) :
    r2 ∈ st.reminders ∨ (r2.user_id = u ∧ r2.medication_id = m ∧ r2.time = t) := by
  cases hf : st.reminders.find? (keyMatch u m t) with
  | some r0 =>
    rw [ensure_reminder_of_found st u m t r0 hf] at h
    exact Or.inl h
  | none =>
    rw [ensure_reminder_of_absent st u m t hf] at h
    dsimp only at h
    rcases List.mem_append.mp h with h1 | h2
    · exact Or.inl h1
    · rcases List.mem_singleton.mp h2 with rfl
      exact Or.inr ⟨rfl, rfl, rfl⟩

/-- The create-if-absent step preserves key uniqueness. -/
theorem nodup_keys_ensure (st : DBState) (u m : Nat) (t : String)
    (h : (st.reminders.map reminderKey).Nodup) :
    ((ensure_reminder st u m t).reminders.map reminderKey).Nodup := by
  cases hf : st.reminders.find? (keyMatch u m t) with
  | some r0 =>
    rw [ensure_reminder_of_found st u m t r0 hf]
    exact h
  | none =>
    rw [ensure_reminder_of_absent st u m t hf]
    dsimp only
    rw [List.map_append, List.nodup_append]
    refine ⟨h, List.nodup_singleton _, ?_⟩
    intro k hk1 hk2
    rw [List.map_singleton, List.mem_singleton] at hk2
    subst hk2
    obtain ⟨x, hx, hkx⟩ := List.mem_map.mp hk1
    simp only [reminderKey, Prod.mk.injEq] at hkx
    obtain ⟨h1, h2, h3⟩ := hkx
    have hkm : keyMatch u m t x = true := by
      simp [keyMatch, h1, h2, h3]
    exact List.find?_eq_none.mp hf x hx hkm

/-- Membership after a reconcile fold: a stored reminder was already
present or carries the folded user, medication and one of the folded
times. -/
theorem mem_fold_ensure (u m : Nat) :
    ∀ (ts : List String) (st : DBState) (r2 : Reminder),
      r2 ∈ (ts.foldl (fun s x => ensure_reminder s u m x) st).reminders →
      r2 ∈ st.reminders ∨ (r2.user_id = u ∧ r2.medication_id = m ∧ r2.time ∈ ts)
  | [], _, _, h => Or.inl h
  | x :: xs, st, r2, h => by
    rcases mem_fold_ensure u m xs (ensure_reminder st u m x) r2 h with h1 | h2
    · rcases mem_ensure st u m x r2 h1 with h3 | ⟨hu, hm, ht⟩
      · exact Or.inl h3
      · refine Or.inr ⟨hu, hm, ?_⟩
        rw [ht]
        exact List.mem_cons_self x xs
    · exact Or.inr ⟨h2.1, h2.2.1, List.mem_cons_of_mem x h2.2.2⟩

/-- A reconcile fold preserves key uniqueness. -/
theorem nodup_keys_fold_ensure (u m : Nat) :
    ∀ (ts : List String) (st : DBState),
      (st.reminders.map reminderKey).Nodup →
      ((ts.foldl (fun s x => ensure_reminder s u m x) st).reminders.map reminderKey).Nodup
  | [], _, h => h
  | x :: xs, st, h =>
    nodup_keys_fold_ensure u m xs (ensure_reminder st u m x) (nodup_keys_ensure st u m x h)

/-- Membership after the per-medication reconcile. -/
theorem mem_ensure_all (st : DBState) (u m : Nat) (freq : String) (r2 : Reminder)
    (h : r2 ∈ (ensure_all st u m freq).reminders) :
    r2 ∈ st.reminders
    ∨ (r2.user_id = u ∧ r2.medication_id = m
        ∧ r2.time ∈ parse_frequency_to_times freq) :=
  mem_fold_ensure u m (parse_frequency_to_times freq) st r2 h

/-- The per-medication reconcile preserves key uniqueness. -/
theorem nodup_keys_ensure_all (st : DBState) (u m : Nat) (freq : String)
    (h : (st.reminders.map reminderKey).Nodup) :
    ((ensure_all st u m freq).reminders.map reminderKey).Nodup :=
  nodup_keys_fold_ensure u m (parse_frequency_to_times freq) st h

/-- Membership after the startup backfill fold: a stored reminder was
already present or was created for one of the active medications at one of
its interpreter times. -/
theorem mem_backfill_go :
    ∀ (ms : List Medication) (st : DBState) (r2 : Reminder),
      r2 ∈ (ms.foldl (fun s md =>
          if md.is_active then ensure_all s md.user_id md.id md.frequency else s)
        st).reminders →
      r2 ∈ st.reminders ∨ ∃ md, md ∈ ms ∧ md.is_active = true
        ∧ r2.user_id = md.user_id ∧ r2.medication_id = md.id
        ∧ r2.time ∈ parse_frequency_to_times md.frequency
  | [], _, _, h => Or.inl h
  | x :: xs, st, r2, h => by
    rcases mem_backfill_go xs
        (if x.is_active then ensure_all st x.user_id x.id x.frequency else st) r2 h with
      h1 | ⟨md, hmd, hact, h3⟩
    · by_cases hx : x.is_active = true
      · rw [if_pos hx] at h1
        rcases mem_ensure_all st x.user_id x.id x.frequency r2 h1 with h4 | ⟨hu, hm, ht⟩
        · exact Or.inl h4
        · exact Or.inr ⟨x, List.mem_cons_self x xs, hx, hu, hm, ht⟩
      · rw [if_neg hx] at h1
        exact Or.inl h1
    · exact Or.inr ⟨md, List.mem_cons_of_mem x hmd, hact, h3⟩

/-- The startup backfill fold preserves key uniqueness. -/
theorem nodup_keys_backfill_go :
    ∀ (ms : List Medication) (st : DBState),
      (st.reminders.map reminderKey).Nodup →
      ((ms.foldl (fun s md =>
          if md.is_active then ensure_all s md.user_id md.id md.frequency else s)
        st).reminders.map reminderKey).Nodup
  | [], _, h => h
  | x :: xs, st, h => by
    show ((xs.foldl (fun s md =>
        if md.is_active then ensure_all s md.user_id md.id md.frequency else s)
      (if x.is_active then ensure_all st x.user_id x.id x.frequency else st)).reminders.map
        reminderKey).Nodup
    apply nodup_keys_backfill_go xs
    by_cases hx : x.is_active = true
    · rw [if_pos hx]
      exact nodup_keys_ensure_all st x.user_id x.id x.frequency h
    · rw [if_neg hx]
      exact h

/-- C9: the reminder-creating operations keep the creation invariant —
after the per-medication reconcile step that all three creation paths
share, every stored reminder either predates the call or carries the
medication's user, id and a time in the frequency interpreter's output for
the medication's frequency text; likewise after the startup backfill, for
the respective owning active medication; and both operations preserve the
at-most-one-reminder-per-(user, medication, time)-key uniqueness of the
store. -/
theorem C9_creation_invariant (st : DBState) (u m : Nat) (freq : String)
    (hkeys : (st.reminders.map reminderKey).Nodup) :
    (∀ r2 ∈ (ensure_all st u m freq).reminders,
        r2 ∈ st.reminders ∨ (r2.user_id = u ∧ r2.medication_id = m
          ∧ r2.time ∈ parse_frequency_to_times freq))
    ∧ ((ensure_all st u m freq).reminders.map reminderKey).Nodup
    ∧ (∀ r2 ∈ (backfill_reminders_for_all_users st).reminders,
        r2 ∈ st.reminders ∨ ∃ md, md ∈ st.medications ∧ md.is_active = true
          ∧ r2.user_id = md.user_id ∧ r2.medication_id = md.id
          ∧ r2.time ∈ parse_frequency_to_times md.frequency)
    ∧ ((backfill_reminders_for_all_users st).reminders.map reminderKey).Nodup := by
  refine ⟨?_, nodup_keys_ensure_all st u m freq hkeys, ?_, ?_⟩
  · intro r2 h
    exact mem_ensure_all st u m freq r2 h
  · intro r2 h
    exact mem_backfill_go st.medications st r2 h
  · exact nodup_keys_backfill_go st.medications st hkeys

/-- Concrete due reminder processed first in the C6 check. -/
def exRemA : Reminder :=
  { id := 21, user_id := 7, medication_id := 1, time := "09:00",
    is_active := true, last_sent := none }

/-- Concrete due reminder processed second in the C6 check. -/
def exRemB : Reminder :=
  { id := 22, user_id := 7, medication_id := 1, time := "09:00",
    is_active := true, last_sent := none }

/-- Concrete state with two due reminders for the same medication. -/
def exStTwo : DBState :=
  { medications := [exMed], reminders := [exRemA, exRemB], logs := [] }

/-- C6 counterexample: with two due reminders in one tick and a transient
failure raised while the first is processed, the tick aborts with zero
alerts and the second due reminder stays unfired and unchanged, although
the very same tick without the failure fires both — so a per-reminder
failure does prevent the remaining due reminders of that tick from being
evaluated and fired. -/
theorem C6_counterexample :
    (check_and_send_reminders_f exStTwo exNow (fun r => r.id == 21)).2.2 = true
    ∧ (check_and_send_reminders_f exStTwo exNow (fun r => r.id == 21)).2.1 = []
    ∧ (check_and_send_reminders_f exStTwo exNow (fun r => r.id == 21)).1.reminders
        = [exRemA, exRemB]
    ∧ (check_and_send_reminders exStTwo exNow).2.length = 2 := by decide

/-- C6 amended: a failure raised while a due reminder is processed aborts
the remainder of that tick — the failing reminder and every later one are
left untouched and the tick emits nothing from that point on — but the
scheduler loop catches the tick's error, so the loop still evaluates every
scheduled tick, one evaluation per tick instant, whatever failures its
ticks raise. -/
theorem C6_failure_aborts_tick_not_loop (st : DBState) (now : DateTime)
    (fails : Reminder → Bool) (r : Reminder) (rs : List Reminder)
    (hdue : due now r = true) (hfail : fails r = true)
    (floop : Nat → Reminder → Bool) (k : Nat) (ts : List DateTime) (st0 : DBState) :
    tick_go_f st now fails (r :: rs) = (r :: rs, [], true)
    ∧ (reminder_loop floop k ts st0).2.length = ts.length := by
  constructor
  · unfold tick_go_f
    rw [if_pos hdue, if_pos hfail]
  · induction ts generalizing k st0 with
    | nil => rfl
    | cons t ts2 ih => simp [reminder_loop, ih]

/-- C6 amended witness at the concrete two-reminder state. -/
theorem C6_failure_aborts_tick_not_loop_witness :
    due exNow exRemA = true
    ∧ (fun r : Reminder => r.id == 21) exRemA = true
    ∧ (tick_go_f exStTwo exNow (fun r => r.id == 21) [exRemA, exRemB]
          = ([exRemA, exRemB], [], true)
      ∧ (reminder_loop (fun _ _ => false) 0 [exNow] exStTwo).2.length
          = [exNow].length) :=
  ⟨by decide, by decide,
   C6_failure_aborts_tick_not_loop exStTwo exNow (fun r => r.id == 21) exRemA [exRemB]
     (by decide) (by decide) (fun _ _ => false) 0 [exNow] exStTwo⟩

/-- Modelled from the spec: section 6's alert payload field list
(reminderId, medicationId, medicationName, dosage, instructions, time,
firedAt) in the source's key spelling — the source writes the field names
in snake case and renders firedAt as the timestamp key. -/
def specAlertFields : List String :=
  ["reminder_id", "medication_id", "medication_name", "dosage",
   "instructions", "time", "timestamp"]

/-- C7 counterexample: the single alert the concrete tick hands to fan-out
does not carry exactly the spec's seven payload fields — it also carries a
type field, which is not among them. -/
theorem C7_counterexample :
    (check_and_send_reminders exSt exNow).2
      = [mkAlert { exRem with last_sent := some exNow } exMed exNow]
    ∧ (mkAlert { exRem with last_sent := some exNow } exMed exNow).map Prod.fst
      ≠ specAlertFields
    ∧ "type" ∈ (mkAlert { exRem with last_sent := some exNow } exMed exNow).map Prod.fst
    ∧ "type" ∉ specAlertFields := by decide

/-- C7 amended: every alert a scheduler tick hands to fan-out carries
exactly the field list type, reminder_id, medication_id, medication_name,
dosage, instructions, time, timestamp — the spec's seven fields, in the
source's spelling, preceded by one extra type field. -/
theorem C7_alert_fields (st : DBState) (now : DateTime) (a : Alert)
    (ha : a ∈ (check_and_send_reminders st now).2) :
    a.map Prod.fst = "type" :: specAlertFields := by
  obtain ⟨r, hr, hpr⟩ := List.mem_filterMap.mp ha
  unfold process_reminder send_reminder_alert at hpr
  cases hdue : due now r
  · simp [hdue] at hpr
  · cases hf : st.medications.find? (fun m => m.id == r.medication_id)
    · simp [hdue, hf] at hpr
    · simp [hdue, hf] at hpr
      subst hpr
      rfl

/-- C7 amended witness: the concrete tick's alert, with its field list. -/
theorem C7_alert_fields_witness :
    (mkAlert { exRem with last_sent := some exNow } exMed exNow
        ∈ (check_and_send_reminders exSt exNow).2)
    ∧ (mkAlert { exRem with last_sent := some exNow } exMed exNow).map Prod.fst
        = "type" :: specAlertFields :=
  ⟨by decide, C7_alert_fields exSt exNow _ (by decide)⟩

/-- C1 witness at the concrete never-fired reminder: every hypothesis
holds and the tick fires it exactly once. -/
theorem C1_due_reminder_fires_once_witness :
    exRem ∈ exSt.reminders
    ∧ ((exSt.reminders.map fun x => toString x.id).Nodup)
    ∧ exRem.is_active = true
    ∧ exRem.time = exNow.hhmm
    ∧ (exRem.last_sent = none ∨ ∃ d, exRem.last_sent = some d ∧ d.date ≠ exNow.date)
    ∧ exSt.medications.find? (fun x => x.id == exRem.medication_id) = some exMed
    ∧ ((check_and_send_reminders exSt exNow).2.filter
          (fun a => List.lookup "reminder_id" a == some (toString exRem.id))
        = [mkAlert { exRem with last_sent := some exNow } exMed exNow]
      ∧ (check_and_send_reminders exSt exNow).1.reminders.filter
          (fun x => x.id == exRem.id)
        = [{ exRem with last_sent := some exNow }]) :=
  ⟨by decide, by decide, by decide, by decide, Or.inl (by decide), by decide,
   C1_due_reminder_fires_once exSt exNow exRem exMed (by decide) (by decide)
     (by decide) (by decide) (Or.inl (by decide)) (by decide)⟩

/-- Concrete reminder already fired today at 09:00 on day 100. -/
def exRemFiredToday : Reminder :=
  { id := 12, user_id := 7, medication_id := 1, time := "09:00",
    is_active := true, last_sent := some exNow }

/-- Concrete state holding the already-fired reminder. -/
def exStFired : DBState :=
  { medications := [exMed], reminders := [exRemFiredToday], logs := [] }

/-- Concrete next-day tick instant: 09:00 on day 101. -/
def exNext : DateTime := { date := 101, hour := 9, minute := 0 }

/-- C2 witness: a same-day re-tick emits nothing for the already-fired
reminder, and the next-day 09:00 tick fires it once again. -/
theorem C2_at_most_once_per_day_witness :
    exRemFiredToday ∈ exStFired.reminders
    ∧ ((exStFired.reminders.map fun x => toString x.id).Nodup)
    ∧ exRemFiredToday.is_active = true
    ∧ exRemFiredToday.last_sent = some exNow
    ∧ exNow.date = exNow.date
    ∧ exNext.date = exNow.date + 1
    ∧ exRemFiredToday.time = exNext.hhmm
    ∧ exStFired.medications.find?
        (fun x => x.id == exRemFiredToday.medication_id) = some exMed
    ∧ ((check_and_send_reminders exStFired exNow).2.filter
          (fun a => List.lookup "reminder_id" a == some (toString exRemFiredToday.id))
        = []
      ∧ (check_and_send_reminders exStFired exNow).1.reminders.filter
          (fun x => x.id == exRemFiredToday.id) = [exRemFiredToday]
      ∧ (check_and_send_reminders exStFired exNext).2.filter
          (fun a => List.lookup "reminder_id" a == some (toString exRemFiredToday.id))
        = [mkAlert { exRemFiredToday with last_sent := some exNext } exMed exNext]) :=
  ⟨by decide, by decide, by decide, by decide, rfl, by decide, by decide, by decide,
   C2_at_most_once_per_day exStFired exNow exNext exRemFiredToday exMed exNow
     (by decide) (by decide) (by decide) (by decide) rfl (by decide) (by decide)
     (by decide)⟩

/-- Concrete state whose only reminder has no medication document at all. -/
def exStNoMed : DBState := { medications := [], reminders := [exRem], logs := [] }

/-- C3 amended witness: with the medication document missing, the tick
emits nothing for the reminder and stores it unchanged. -/
theorem C3_missing_medication_skips_witness :
    exRem ∈ exStNoMed.reminders
    ∧ ((exStNoMed.reminders.map fun x => toString x.id).Nodup)
    ∧ exStNoMed.medications.find? (fun x => x.id == exRem.medication_id) = none
    ∧ ((check_and_send_reminders exStNoMed exNow).2.filter
          (fun a => List.lookup "reminder_id" a == some (toString exRem.id)) = []
      ∧ (check_and_send_reminders exStNoMed exNow).1.reminders.filter
          (fun x => x.id == exRem.id) = [exRem]) :=
  ⟨by decide, by decide, by decide,
   C3_missing_medication_skips exStNoMed exNow exRem (by decide) (by decide)
     (by decide)⟩

/-- C5 witness at the concrete one-reminder store and its own key. -/
theorem C5_ensure_idempotent_witness :
    countKey exSt 7 1 "09:00" ≤ 1
    ∧ (ensure_reminder (ensure_reminder exSt 7 1 "09:00") 7 1 "09:00"
          = ensure_reminder exSt 7 1 "09:00"
      ∧ ensure_all (ensure_all exSt 7 1 "twice daily (1-0-1)") 7 1 "twice daily (1-0-1)"
          = ensure_all exSt 7 1 "twice daily (1-0-1)"
      ∧ countKey (ensure_reminder exSt 7 1 "09:00") 7 1 "09:00" = 1) :=
  ⟨by decide,
   C5_ensure_idempotent exSt 7 1 "09:00" "twice daily (1-0-1)" (by decide)⟩

/-- C9 witness at the concrete one-reminder store. -/
theorem C9_creation_invariant_witness :
    (exSt.reminders.map reminderKey).Nodup
    ∧ ((∀ r2 ∈ (ensure_all exSt 7 1 "at night").reminders,
          r2 ∈ exSt.reminders ∨ (r2.user_id = 7 ∧ r2.medication_id = 1
            ∧ r2.time ∈ parse_frequency_to_times "at night"))
      ∧ ((ensure_all exSt 7 1 "at night").reminders.map reminderKey).Nodup
      ∧ (∀ r2 ∈ (backfill_reminders_for_all_users exSt).reminders,
          r2 ∈ exSt.reminders ∨ ∃ md, md ∈ exSt.medications ∧ md.is_active = true
            ∧ r2.user_id = md.user_id ∧ r2.medication_id = md.id
            ∧ r2.time ∈ parse_frequency_to_times md.frequency)
      ∧ ((backfill_reminders_for_all_users exSt).reminders.map reminderKey).Nodup) :=
  ⟨by decide, C9_creation_invariant exSt 7 1 "at night" (by decide)⟩
